import Mathlib

/-!
Verification development for the tap-appstore incremental extraction engine
(`tap_appstore/streams.py`).  The Python module is shallowly embedded: pure
helpers become Lean functions, the stateful `query_report` driver becomes a
function producing an explicit event trace (bookmark writes, state flushes,
vendor fetches, emitted records), and Python exceptions become explicit
error values.
-/

/-! ## Datetime model

Python `datetime` values are embedded as records of their calendar fields.
`tzOffsetMinutes` carries `tzinfo` (`none` = naive); no operation modelled
here reads it: the driver converts every datetime to the same local timezone
via `astimezone()`, so Python's aware comparison coincides with wall-clock
field comparison, and the bookmark format `'%Y-%m-%dT%H:%M:%SZ'` contains no
`%z`/`%f` directive. -/

structure PyDateTime where
  year : Nat
  month : Nat
  day : Nat
  hour : Nat := 0
  minute : Nat := 0
  second : Nat := 0
  microsecond : Nat := 0
  tzOffsetMinutes : Option Int := none
deriving DecidableEq, Repr

/-- Three-way comparison of naturals (Python `<`/`>` on equal fields). -/
def cmpNat (a b : Nat) : Ordering :=
  if a < b then .lt else if b < a then .gt else .eq

/-- Sequencing of comparisons: the first non-`eq` result wins. -/
def ordThen : Ordering → Ordering → Ordering
  | .eq, y => y
  | x, _ => x

/-- Python datetime comparison: field-lexicographic
(year, month, day, hour, minute, second, microsecond). -/
def PyDateTime.cmp (a b : PyDateTime) : Ordering :=
  ordThen (cmpNat a.year b.year)
    (ordThen (cmpNat a.month b.month)
      (ordThen (cmpNat a.day b.day)
        (ordThen (cmpNat a.hour b.hour)
          (ordThen (cmpNat a.minute b.minute)
            (ordThen (cmpNat a.second b.second)
              (cmpNat a.microsecond b.microsecond))))))

def PyDateTime.le (a b : PyDateTime) : Bool :=
  match a.cmp b with
  | .gt => false
  | _ => true

def PyDateTime.lt (a b : PyDateTime) : Bool :=
  match a.cmp b with
  | .lt => true
  | _ => false

def isLeapYear (y : Nat) : Bool :=
  (y % 4 == 0 && y % 100 != 0) || y % 400 == 0

def daysInMonth (y m : Nat) : Nat :=
  if m = 2 then (if isLeapYear y then 29 else 28)
  else if m = 4 ∨ m = 6 ∨ m = 9 ∨ m = 11 then 30
  else 31

/-- The two window granularities: `relativedelta(days=1)` for the base
(sales) streams and `relativedelta(months=1)` for `FinancialReportStream`. -/
inductive Delta where
  | days1
  | months1
deriving DecidableEq, Repr

/-- `d + relativedelta(days=1)` / `d + relativedelta(months=1)`:
one day with month/year rollover, or one month with year rollover and the
day-of-month clamped to the length of the target month. -/
def addDelta : Delta → PyDateTime → PyDateTime
  | .days1, d =>
    if d.day < daysInMonth d.year d.month then { d with day := d.day + 1 }
    else if d.month < 12 then { d with month := d.month + 1, day := 1 }
    else { d with year := d.year + 1, month := 1, day := 1 }
  | .months1, d =>
    if d.month < 12 then
      { d with month := d.month + 1, day := min d.day (daysInMonth d.year (d.month + 1)) }
    else
      { d with year := d.year + 1, month := 1, day := min d.day (daysInMonth (d.year + 1) 1) }

/-! ## Date formatting and parsing (`strftime` / `strptime`)

`DATE_FORMAT = '%Y-%m-%dT%H:%M:%SZ'` and the per-stream
`report_date_format` (`'%Y-%m-%d'` daily, `'%Y-%m'` monthly). -/

def DATE_FORMAT : String := "%Y-%m-%dT%H:%M:%SZ"

def digitChar (n : Nat) : Char := Char.ofNat (48 + n)

/-- Zero-padded two-digit rendering (`%m`, `%d`, `%H`, `%M`, `%S`). -/
def format2 (n : Nat) : List Char := [digitChar (n / 10), digitChar (n % 10)]

/-- Four-digit rendering of a year (`%Y` on a year in datetime's range). -/
def format4 (n : Nat) : List Char :=
  [digitChar (n / 1000), digitChar (n / 100 % 10), digitChar (n / 10 % 10), digitChar (n % 10)]

/-- `value.strftime(DATE_FORMAT)`: the fixed format has no `%f`/`%z`, so
microseconds and timezone information never reach the output. -/
def strftimeBookmark (d : PyDateTime) : String :=
  String.mk (format4 d.year ++ ('-' :: (format2 d.month ++ ('-' :: (format2 d.day ++
    ('T' :: (format2 d.hour ++ (':' :: (format2 d.minute ++
      (':' :: (format2 d.second ++ ['Z'])))))))))))

/-- `report_date.strftime(self.report_date_format)`. -/
def strftimeReportDate : Delta → PyDateTime → String
  | .days1, d => String.mk (format4 d.year ++ ('-' :: (format2 d.month ++ ('-' :: format2 d.day))))
  | .months1, d => String.mk (format4 d.year ++ ('-' :: format2 d.month))

/-- Greedy decimal-digit run, accumulating the value. -/
def readDigits : List Char → Nat → Nat × List Char
  | [], acc => (acc, [])
  | c :: cs, acc =>
    if c.isDigit then readDigits cs (acc * 10 + (c.toNat - 48)) else (acc, c :: cs)

/-- A numeric field of the format: at least one digit must be present. -/
def readNat : List Char → Option (Nat × List Char)
  | [] => none
  | c :: cs => if c.isDigit then some (readDigits (c :: cs) 0) else none

/-- A literal character of the format string. -/
def expectChar (c : Char) : List Char → Option (List Char)
  | [] => none
  | x :: xs => if x = c then some xs else none

/-- `datetime.strptime(s, DATE_FORMAT)`: parse the six numeric fields
separated by the format's literals, reject trailing input and field values
outside datetime's ranges (`strptime` raises `ValueError` there, modelled as
`none`).  The result is naive with zero microseconds. -/
def strptimeBookmark (s : String) : Option PyDateTime := do
  let (y, cs) ← readNat s.toList
  let cs ← expectChar '-' cs
  let (mo, cs) ← readNat cs
  let cs ← expectChar '-' cs
  let (d, cs) ← readNat cs
  let cs ← expectChar 'T' cs
  let (h, cs) ← readNat cs
  let cs ← expectChar ':' cs
  let (mi, cs) ← readNat cs
  let cs ← expectChar ':' cs
  let (sec, cs) ← readNat cs
  let cs ← expectChar 'Z' cs
  if cs = [] ∧ 1 ≤ y ∧ y ≤ 9999 ∧ 1 ≤ mo ∧ mo ≤ 12 ∧ 1 ≤ d ∧ d ≤ daysInMonth y mo ∧
      h ≤ 23 ∧ mi ≤ 59 ∧ sec ≤ 59 then
    some { year := y, month := mo, day := d, hour := h, minute := mi, second := sec }
  else
    none

/-- The range invariant every Python `datetime` object satisfies. -/
abbrev pythonValidDateTime (v : PyDateTime) : Prop :=
  1 ≤ v.year ∧ v.year ≤ 9999 ∧ 1 ≤ v.month ∧ v.month ≤ 12 ∧
  1 ≤ v.day ∧ v.day ≤ daysInMonth v.year v.month ∧
  v.hour ≤ 23 ∧ v.minute ≤ 59 ∧ v.second ≤ 59 ∧ v.microsecond ≤ 999999

/-! ## Bookmark state (`get_bookmark` / `update_bookmark`)

The relevant slice of the singer state is the stored `start_date` string for
this stream (`none` when absent); `singer.get_bookmark` falls back to the
configured `start_date`. -/

def get_bookmark_raw (state : Option String) (configStartDate : String) : String :=
  state.getD configStartDate

/-- `Stream.get_bookmark`: read the stored (or configured) string and
`strptime` it with `DATE_FORMAT`. -/
def Stream.get_bookmark (state : Option String) (configStartDate : String) : Option PyDateTime :=
  strptimeBookmark (get_bookmark_raw state configStartDate)

/-- `FinancialReportStream.get_bookmark`: the base bookmark with
`.replace(day=1, hour=0, minute=0, second=0, microsecond=0)`. -/
def FinancialReportStream.get_bookmark (state : Option String) (configStartDate : String) :
    Option PyDateTime :=
  (Stream.get_bookmark state configStartDate).map fun d =>
    { d with day := 1, hour := 0, minute := 0, second := 0, microsecond := 0 }

/-- `Stream.update_bookmark`: overwrite the stored `start_date` with
`value.strftime(DATE_FORMAT)` (the previous stored value is irrelevant). -/
def Stream.update_bookmark (_state : Option String) (value : PyDateTime) : Option String :=
  some (strftimeBookmark value)

/-! ## Report parser (`Stream.parse_api_response`) -/

/-- Python `str.split(sep)` for a one-character separator: every segment is
kept, including empty ones, and the result is never empty. -/
def splitOnChar (sep : Char) : List Char → List (List Char)
  | [] => [[]]
  | c :: cs =>
    let rest := splitOnChar sep cs
    if c = sep then [] :: rest
    else (c :: rest.headD []) :: rest.tail

/-- Python `str.strip()`: drop whitespace from both ends (report cells are
ASCII). -/
def trimChars (cs : List Char) : List Char :=
  ((cs.dropWhile Char.isWhitespace).reverse.dropWhile Char.isWhitespace).reverse

def trimString (s : String) : String := String.mk (trimChars s.toList)

/-- Header-cell normalization:
`s.lower().replace(' ', '_').replace('-', '_')` (ASCII lowering; the vendor
headers are ASCII, and both replaced patterns are single characters). -/
def normalizeColumnChars (cs : List Char) : List Char :=
  ((cs.map Char.toLower).map fun c => if c = ' ' then '_' else c).map fun c =>
    if c = '-' then '_' else c

def normalizeColumn (s : String) : String := String.mk (normalizeColumnChars s.toList)

/-- Python `dict` insertion on an insertion-ordered association list:
re-inserting an existing key updates its value in place, a new key is
appended. -/
def dictInsert {β : Type} (m : List (String × β)) (k : String) (v : β) :
    List (String × β) :=
  if m.any (fun p => p.1 = k) then
    m.map (fun p => if p.1 = k then (k, v) else p)
  else
    m ++ [(k, v)]

/-- The body of `for i, column in enumerate(header): if i < len(line_cols):
line_obj[column] = line_cols[i].strip()`, with the running index explicit. -/
def buildLineObjAux (cols : List String) : Nat → List String → List (String × String) →
    List (String × String)
  | _, [], acc => acc
  | i, column :: hdr, acc =>
    buildLineObjAux cols (i + 1) hdr
      (if i < cols.length then dictInsert acc column (trimString (cols.getD i "")) else acc)

def buildLineObj (header cols : List String) : List (String × String) :=
  buildLineObjAux cols 0 header []

/-- The normalized header: the first line of the response split on tabs,
each cell normalized. -/
def responseHeader (responseTsv : String) : List String :=
  (splitOnChar '\t' ((splitOnChar '\n' responseTsv.toList).headD [])).map fun cell =>
    String.mk (normalizeColumnChars cell)

/-- `Stream.parse_api_response` on tabular text: split into lines, take the
normalized first line as header, skip zero-length data lines, split each
remaining line on tabs and pair the header columns with the trimmed cells
(columns beyond the row's cell count are simply absent).  The `dict` input
case (`raise Exception(...)`) is modelled at the fetch boundary, see
`attempt_download_report`. -/
def parse_api_response (responseTsv : String) : List (List (String × String)) :=
  let lines := splitOnChar '\n' responseTsv.toList
  let header := responseHeader responseTsv
  ((lines.drop 1).filter fun line => line.length ≠ 0).map fun line =>
    buildLineObj header ((splitOnChar '\t' line).map String.mk)

/-! ## Fetch boundary and the driver's event trace -/

/-- The three shapes a vendor call can take inside
`_attempt_download_report`: raise `APIError`, return a JSON `dict`, or
return tabular text.  (The sales and finance endpoints differ only in which
vendor operation is invoked; both overrides share this structure.) -/
inductive FetchOutcome where
  | raiseAPIError
  | returnDict
  | returnTsv (text : String)
deriving DecidableEq, Repr

/-- Python exceptions that can escape the stream driver. -/
inductive StreamExc where
  /-- the `Exception` raised by `parse_api_response` on a `dict` response -/
  | jsonResponse
  /-- the `TypeError` raised by `enumerate(None)` in `query_report` when
  `_attempt_download_report` returned `None` -/
  | noneIteration
deriving DecidableEq, Repr

/-- `_attempt_download_report` (sales and finance overrides): `APIError` is
caught, logged and turned into `None`; a `dict` response makes
`parse_api_response` raise (uncaught, so it propagates); tabular text is
parsed. -/
def attempt_download_report (resp : FetchOutcome) :
    Except StreamExc (Option (List (List (String × String)))) :=
  match resp with
  | .raiseAPIError => .ok none
  | .returnDict => .error .jsonResponse
  | .returnTsv t => .ok (some (parse_api_response t))

/-- Record field values: `_line_id` is an `int`, everything else a `str`. -/
inductive Val where
  | str (s : String)
  | int (n : Nat)
deriving DecidableEq, Repr

/-- Observable actions of `query_report`, in program order. -/
inductive Event where
  /-- `singer.write_bookmark(state, name, 'start_date', v.strftime(DATE_FORMAT))` -/
  | bookmarkWrite (v : PyDateTime)
  /-- `singer.write_state(state)` -/
  | stateFlush
  /-- `self.get_report(iterator)`: one vendor fetch for the window starting here -/
  | fetch (windowStart : PyDateTime)
  /-- `singer.write_record(name, rec, ...)` -/
  | record (data : List (String × Val))
deriving DecidableEq, Repr

def Event.isRecord : Event → Bool
  | .record _ => true
  | _ => false

def Event.isFetch : Event → Bool
  | .fetch _ => true
  | _ => false

def Event.isStateFlush : Event → Bool
  | .stateFlush => true
  | _ => false

def Event.isBookmarkWrite : Event → Bool
  | .bookmarkWrite _ => true
  | _ => false

/-- Any mutation of the persisted state: a bookmark write or a state flush. -/
def Event.isStateWrite (e : Event) : Bool :=
  e.isBookmarkWrite || e.isStateFlush

/-- The `data` dict of one emitted record: the four synthetic fields in
insertion order, then `**line` (which would override a colliding key).
`Transformer.transform` is the identity here: schema conformance happens at
the emission boundary, outside the modelled scope (the unit test drives
`query_report` with an empty schema). -/
def mkRecordData (index : Nat) (timeExtracted apiReportDate vendorNumber : String)
    (line : List (String × String)) : List (String × Val) :=
  line.foldl (fun m kv => dictInsert m kv.1 (Val.str kv.2))
    [("_line_id", Val.int index), ("_time_extracted", Val.str timeExtracted),
     ("_api_report_date", Val.str apiReportDate), ("vendor_number", Val.str vendorNumber)]

/-- `for index, line in enumerate(rep, start=1): ... singer.write_record(...)`. -/
def emitRecords (delta : Delta) (vendor : String) (extractionTime iterator : PyDateTime)
    (rows : List (List (String × String))) : List Event :=
  rows.enum.map fun ir =>
    Event.record (mkRecordData (ir.1 + 1) (strftimeBookmark extractionTime)
      (strftimeReportDate delta iterator) vendor ir.2)

/-- The `while iterator + self.delta <= extraction_time` loop of
`query_report`.  `getReport` is the per-window result of
`self.get_report(iterator)` (see `attempt_download_report`).  `fuel` bounds
the recursion; the returned `Bool` is `true` exactly when the loop condition
became false (the run completed rather than running out of fuel).  The
returned `Option StreamExc` is the exception aborting the loop, if any:
a `None` report makes `enumerate(rep, start=1)` raise `TypeError` before any
record of the window is written and before the checkpoint advances. -/
def query_report_loop (getReport : PyDateTime → Except StreamExc (Option (List (List (String × String)))))
    (delta : Delta) (vendor : String) (extractionTime : PyDateTime) :
    Nat → PyDateTime → List Event × Option StreamExc × Bool
  | 0, iterator =>
    if (addDelta delta iterator).le extractionTime then ([], none, false)
    else ([], none, true)
  | fuel + 1, iterator =>
    if (addDelta delta iterator).le extractionTime then
      match getReport iterator with
      | .error e => ([Event.fetch iterator], some e, false)
      | .ok none => ([Event.fetch iterator], some StreamExc.noneIteration, false)
      | .ok (some rows) =>
        let next := addDelta delta iterator
        let rest := query_report_loop getReport delta vendor extractionTime fuel next
        (Event.fetch iterator ::
           (emitRecords delta vendor extractionTime iterator rows ++
             (Event.bookmarkWrite next :: Event.stateFlush :: rest.1)),
         rest.2.1, rest.2.2)
    else ([], none, true)

/-- `Stream.query_report`: write the (already normalized) bookmark once
before the loop, run the window loop, and flush state once more after the
loop — the final flush happens only on normal completion, an escaping
exception skips it.  `bookmark` is the value of `get_bookmark().astimezone()`
(`astimezone` preserves the wall-clock fields) and `extractionTime` the value
of `singer.utils.now().astimezone()`, fixed for the whole run. -/
def query_report (getReport : PyDateTime → Except StreamExc (Option (List (List (String × String)))))
    (delta : Delta) (vendor : String) (bookmark extractionTime : PyDateTime) (fuel : Nat) :
    List Event × Option StreamExc × Bool :=
  let res := query_report_loop getReport delta vendor extractionTime fuel bookmark
  if res.2.1 = none ∧ res.2.2 = true then
    (Event.bookmarkWrite bookmark :: (res.1 ++ [Event.stateFlush]), none, true)
  else
    (Event.bookmarkWrite bookmark :: res.1, res.2.1, res.2.2)

/-- The sequence of checkpoint values written to the state, in order. -/
def bookmarkValues (l : List Event) : List PyDateTime :=
  l.filterMap fun e =>
    match e with
    | .bookmarkWrite v => some v
    | _ => none

/-- The checkpoint stored after executing a list of events, starting from
`dflt`. -/
def lastBookmarkD (dflt : PyDateTime) : List Event → PyDateTime
  | [] => dflt
  | .bookmarkWrite v :: es => lastBookmarkD v es
  | .stateFlush :: es => lastBookmarkD dflt es
  | .fetch _ :: es => lastBookmarkD dflt es
  | .record _ :: es => lastBookmarkD dflt es

/-- The checkpoint stored after executing a list of events (`none` while no
bookmark write has happened yet). -/
def lastBookmark : List Event → Option PyDateTime
  | [] => none
  | .bookmarkWrite v :: es => some (lastBookmarkD v es)
  | .stateFlush :: es => lastBookmark es
  | .fetch _ :: es => lastBookmark es
  | .record _ :: es => lastBookmark es

/-! ## Concrete scenarios -/

/-- The end-to-end fixture of `test_stream.py`: the vendor has reports for
the `2023-05` and `2023-06` windows only (the mocked `get_report` returns the
row lists directly, and `None` for any other month). -/
def fixtureGetReport (d : PyDateTime) :
    Except StreamExc (Option (List (List (String × String)))) :=
  .ok
    (if strftimeReportDate Delta.months1 d = "2023-05" then
      some [[("test", "2023-05"), ("apple_identifier", "1")],
            [("test", "2023-05"), ("apple_identifier", "1")]]
    else if strftimeReportDate Delta.months1 d = "2023-06" then
      some [[("test", "2023-06"), ("apple_identifier", "1")]]
    else none)

def may2023 : PyDateTime := { year := 2023, month := 5, day := 1 }
def june2023 : PyDateTime := { year := 2023, month := 6, day := 1 }
def july2023 : PyDateTime := { year := 2023, month := 7, day := 1 }

/-- The fixture run: monthly stream, bookmark `2023-05-01T00:00:00Z`,
extraction instant `2023-07-01`. -/
def fixtureRun : List Event × Option StreamExc × Bool :=
  query_report fixtureGetReport Delta.months1 "123" may2023 july2023 5

/-- A run in which every vendor call raises `APIError`: daily stream,
checkpoint `2023-07-01T00:00:00Z`, extraction instant `2023-07-03`. -/
def apiErrorRun : List Event × Option StreamExc × Bool :=
  query_report (fun _ => attempt_download_report FetchOutcome.raiseAPIError)
    Delta.days1 "123" { year := 2023, month := 7, day := 1 }
    { year := 2023, month := 7, day := 3 } 5

/-- A run in which every vendor call returns a JSON `dict`: monthly stream,
checkpoint `2023-05-01T00:00:00Z`, extraction instant `2023-07-01`. -/
def dictRun : List Event × Option StreamExc × Bool :=
  query_report (fun _ => attempt_download_report FetchOutcome.returnDict)
    Delta.months1 "123" may2023 july2023 5

/-- A run with no eligible window: daily stream, checkpoint
`2023-07-01T00:00:00Z`, extraction instant `2023-07-01` (so
`checkpoint + Δ > now`). -/
def noWindowRun : List Event × Option StreamExc × Bool :=
  query_report (fun _ => .ok (some [])) Delta.days1 "123"
    { year := 2023, month := 7, day := 1 } { year := 2023, month := 7, day := 1 } 5

/-! ## Claim theorems: concrete scenarios -/

/-- C8: `parse_api_response` normalizes header cells (lowercasing, spaces
and hyphens to underscores), skips zero-length data lines, trims cell
values, and omits the keys of missing trailing cells; the blob with header
`A\tB`, data rows `1\t2` and `3`, and a trailing blank line yields exactly
`{a:"1", b:"2"}` and `{a:"3"}`. -/
theorem C8_parser_roundtrip :
    parse_api_response "A\tB\n1\t2\n3\n" = [[("a", "1"), ("b", "2")], [("a", "3")]] ∧
    parse_api_response "A\tB\n x \t y " = [[("a", "x"), ("b", "y")]] ∧
    responseHeader "Apple Identifier\tSub-Type\n1\t2" = ["apple_identifier", "sub_type"] := by
  refine ⟨?_, ?_, ?_⟩ <;> rfl

/-- C5: the end-to-end fixture (monthly stream, bookmark `2023-05-01`, now
`2023-07-01`, 2 rows for `2023-05`, 1 row for `2023-06`, `2023-07`
ineligible) emits exactly 3 records and performs exactly 3 state flushes,
with checkpoints `2023-05-01`, `2023-06-01`, `2023-07-01` written in that
order, completing without an exception. -/
theorem C5_end_to_end_fixture :
    (fixtureRun.1.filter Event.isRecord).length = 3 ∧
    (fixtureRun.1.filter Event.isStateFlush).length = 3 ∧
    bookmarkValues fixtureRun.1 = [may2023, june2023, july2023] ∧
    fixtureRun.2.1 = none ∧ fixtureRun.2.2 = true := by
  refine ⟨?_, ?_, ?_, ?_, ?_⟩ <;> rfl

/-- C1: when the vendor call raises `APIError` for an eligible window,
`_attempt_download_report` returns `None`, and `query_report` then raises
`TypeError` at `enumerate(None)`: zero records are emitted for the window,
but the stream aborts and the checkpoint is left at the window's start
instead of advancing to its end boundary.  Evaluated at the failing input:
daily stream, checkpoint `2023-07-01T00:00:00Z`, now `2023-07-03`. -/
theorem C1_api_error_aborts_run :
    apiErrorRun =
      ([Event.bookmarkWrite { year := 2023, month := 7, day := 1 },
        Event.fetch { year := 2023, month := 7, day := 1 }],
       some StreamExc.noneIteration, false) := by
  rfl

/-- C2 counterexample: with the vendor returning a structured error object
(a `dict`) for the eligible window `2023-05`, the run does not satisfy
"the stream is not aborted and the checkpoint advances past the window":
the raised exception escapes and no write of `2023-06-01` ever happens. -/
theorem C2_claim_fails_on_dict_response :
    ¬ (dictRun.2.1 = none ∧ Event.bookmarkWrite june2023 ∈ dictRun.1) := by
  decide

/-- C2 (amended): for every window in which the vendor returns a `dict`
instead of tabular text, `parse_api_response` raises an exception that
propagates out of the stream driver: zero records are emitted for that
window, the stream aborts, and the checkpoint stays at the window's start
(the only state writes are the initial bookmark write). -/
theorem C2_dict_response_aborts (resp : PyDateTime → FetchOutcome) (delta : Delta)
    (vendor : String) (bookmark extractionTime : PyDateTime) (fuel : Nat)
    (helig : (addDelta delta bookmark).le extractionTime = true)
    (hresp : resp bookmark = FetchOutcome.returnDict) (hfuel : 1 ≤ fuel) :
    query_report (fun d => attempt_download_report (resp d)) delta vendor bookmark
        extractionTime fuel =
      ([Event.bookmarkWrite bookmark, Event.fetch bookmark],
       some StreamExc.jsonResponse, false) := by
  obtain ⟨k, rfl⟩ : ∃ k, fuel = k + 1 := ⟨fuel - 1, by omega⟩
  simp [query_report, query_report_loop, helig, hresp, attempt_download_report]

/-- Witness for `C2_dict_response_aborts` at the `dictRun` scenario. -/
theorem C2_dict_response_aborts_witness :
    (addDelta Delta.months1 may2023).le july2023 = true ∧
    dictRun =
      ([Event.bookmarkWrite may2023, Event.fetch may2023],
       some StreamExc.jsonResponse, false) :=
  ⟨by decide,
   C2_dict_response_aborts (fun _ => FetchOutcome.returnDict) Delta.months1 "123"
     may2023 july2023 5 (by decide) rfl (by omega)⟩

/-- C6 counterexample: invoked with checkpoint `2023-07-01` and extraction
instant `2023-07-01` (so `checkpoint + Δ > now`), the daily driver does
perform zero fetches and emits zero records, but it does not perform zero
state writes: it re-writes the bookmark and flushes state once each. -/
theorem C6_claim_fails_on_state_writes :
    ¬ ((noWindowRun.1.filter Event.isFetch).length = 0 ∧
       (noWindowRun.1.filter Event.isRecord).length = 0 ∧
       (noWindowRun.1.filter Event.isStateWrite).length = 0) := by
  decide

/-- C6 (amended): whenever `checkpoint + Δ > now`, the driver performs zero
vendor fetches and emits zero records, but it still writes the bookmark once
(re-writing the checkpoint it read, normalized) and flushes the state once. -/
theorem C6_no_window_behavior
    (getReport : PyDateTime → Except StreamExc (Option (List (List (String × String)))))
    (delta : Delta) (vendor : String) (bookmark extractionTime : PyDateTime) (fuel : Nat)
    (h : (addDelta delta bookmark).le extractionTime = false) :
    query_report getReport delta vendor bookmark extractionTime fuel =
      ([Event.bookmarkWrite bookmark, Event.stateFlush], none, true) := by
  cases fuel <;> simp [query_report, query_report_loop, h]

/-- Witness for `C6_no_window_behavior` at the `noWindowRun` scenario. -/
theorem C6_no_window_behavior_witness :
    (addDelta Delta.days1 { year := 2023, month := 7, day := 1 }).le
        { year := 2023, month := 7, day := 1 } = false ∧
    noWindowRun =
      ([Event.bookmarkWrite { year := 2023, month := 7, day := 1 }, Event.stateFlush],
       none, true) :=
  ⟨by decide,
   C6_no_window_behavior (fun _ => Except.ok (some [])) Delta.days1 "123"
     { year := 2023, month := 7, day := 1 } { year := 2023, month := 7, day := 1 } 5
     (by decide)⟩

/-! ## Claim theorems: bookmark normalization and parser key discipline -/

/-- C7: for the financial (monthly) stream, the bookmark read from state is
the stored timestamp with the day set to 1 and hour, minute, second and
microsecond set to 0; whenever the base `get_bookmark` parses the stored
string to `d`, the financial override returns `d` so normalized. -/
theorem C7_monthly_bookmark_normalized (state : Option String) (configStartDate : String)
    (d : PyDateTime) (h : Stream.get_bookmark state configStartDate = some d) :
    FinancialReportStream.get_bookmark state configStartDate =
      some { d with day := 1, hour := 0, minute := 0, second := 0, microsecond := 0 } := by
  simp [FinancialReportStream.get_bookmark, h]

/-- Witness for `C7_monthly_bookmark_normalized`: a stored checkpoint of
`2023-05-15T00:00:00Z` yields `2023-05-01T00:00:00Z`. -/
theorem C7_monthly_bookmark_normalized_witness :
    Stream.get_bookmark (some "2023-05-15T00:00:00Z") "1970-01-01T00:00:00Z" =
      some { year := 2023, month := 5, day := 15 } ∧
    FinancialReportStream.get_bookmark (some "2023-05-15T00:00:00Z") "1970-01-01T00:00:00Z" =
      some { year := 2023, month := 5, day := 1 } :=
  ⟨by rfl,
   C7_monthly_bookmark_normalized (some "2023-05-15T00:00:00Z") "1970-01-01T00:00:00Z"
     { year := 2023, month := 5, day := 15 } (by rfl)⟩

/-- Membership in a `dict` insertion: the key is the inserted one or was
already present. -/
theorem mem_dictInsert {β : Type} {m : List (String × β)} {k' : String} {v' : β}
    {k : String} {v : β} (hp : (k, v) ∈ dictInsert m k' v') :
    k = k' ∨ ∃ w, (k, w) ∈ m := by
  unfold dictInsert at hp
  split at hp
  · rw [List.mem_map] at hp
    obtain ⟨p, hpm, hfp⟩ := hp
    by_cases hk : p.1 = k'
    · rw [if_pos hk] at hfp
      exact Or.inl (congrArg Prod.fst hfp).symm
    · rw [if_neg hk] at hfp
      exact Or.inr ⟨v, hfp ▸ hpm⟩
  · rcases List.mem_append.mp hp with hm | hone
    · exact Or.inr ⟨v, hm⟩
    · simp only [List.mem_singleton, Prod.mk.injEq] at hone
      exact Or.inl hone.1

/-- Every key produced by the row-building loop is a header column or was
in the accumulator already. -/
theorem buildLineObjAux_mem {cols : List String} :
    ∀ (hdr : List String) (i : Nat) (acc : List (String × String)) (k v : String),
      (k, v) ∈ buildLineObjAux cols i hdr acc → (∃ w, (k, w) ∈ acc) ∨ k ∈ hdr := by
  intro hdr
  induction hdr with
  | nil =>
    intro i acc k v h
    exact Or.inl ⟨v, h⟩
  | cons column hdr ih =>
    intro i acc k v h
    unfold buildLineObjAux at h
    rcases ih (i + 1) _ k v h with ⟨w, hw⟩ | hmem
    · split at hw
      · rcases mem_dictInsert hw with hk | ⟨w', hw'⟩
        · exact Or.inr (hk ▸ List.mem_cons_self column hdr)
        · exact Or.inl ⟨w', hw'⟩
      · exact Or.inl ⟨w, hw⟩
    · exact Or.inr (List.mem_cons_of_mem column hmem)

/-- Every key of a parsed row is a header column. -/
theorem buildLineObj_mem {hdr cols : List String} {k v : String}
    (h : (k, v) ∈ buildLineObj hdr cols) : k ∈ hdr := by
  rcases buildLineObjAux_mem hdr 0 [] k v h with ⟨w, hw⟩ | hmem
  · simp at hw
  · exact hmem

/-- C9: every mapping returned by `parse_api_response` has keys drawn only
from the normalized header names of the first line; cells beyond the header
width are dropped and contribute no key. -/
theorem C9_record_keys_from_header (s : String) (rec : List (String × String))
    (k v : String) (hrec : rec ∈ parse_api_response s) (hkv : (k, v) ∈ rec) :
    k ∈ responseHeader s := by
  unfold parse_api_response at hrec
  simp only [List.mem_map, List.mem_filter] at hrec
  obtain ⟨line, _, rfl⟩ := hrec
  exact buildLineObj_mem hkv

/-- Witness for `C9_record_keys_from_header` on a row with an extra cell. -/
theorem C9_record_keys_from_header_witness :
    ([("a", "1"), ("b", "2")] ∈ parse_api_response "A\tB\n1\t2\t3" ∧
      (("a", "1") : String × String) ∈ [("a", "1"), ("b", "2")]) ∧
    "a" ∈ responseHeader "A\tB\n1\t2\t3" :=
  ⟨⟨by decide, by decide⟩,
   C9_record_keys_from_header "A\tB\n1\t2\t3" [("a", "1"), ("b", "2")] "a" "1"
     (by decide) (by decide)⟩

/-! ## Claim theorems: bookmark serialization round-trip -/

theorem digitChar_isDigit {a : Nat} (h : a ≤ 9) : (digitChar a).isDigit = true := by
  interval_cases a <;> decide

theorem digitChar_toNat {a : Nat} (h : a ≤ 9) : (digitChar a).toNat = 48 + a := by
  interval_cases a <;> decide

theorem readDigits_digit {a : Nat} (h : a ≤ 9) (cs : List Char) (acc : Nat) :
    readDigits (digitChar a :: cs) acc = readDigits cs (acc * 10 + a) := by
  simp [readDigits, digitChar_isDigit h, digitChar_toNat h]

theorem readDigits_stop {c : Char} (h : c.isDigit = false) (cs : List Char) (acc : Nat) :
    readDigits (c :: cs) acc = (acc, c :: cs) := by
  simp [readDigits, h]

/-- Parsing back a zero-padded two-digit field stops at the following
non-digit and recovers the value. -/
theorem readNat_format2 {n : Nat} (hn : n ≤ 99) {c : Char} (hc : c.isDigit = false)
    (cs : List Char) : readNat (format2 n ++ c :: cs) = some (n, c :: cs) := by
  have h1 : n / 10 ≤ 9 := by omega
  have h2 : n % 10 ≤ 9 := by omega
  simp only [format2, List.cons_append, List.nil_append, readNat,
    digitChar_isDigit h1, if_true, readDigits_digit h1, readDigits_digit h2,
    readDigits_stop hc]
  have : (0 * 10 + n / 10) * 10 + n % 10 = n := by omega
  rw [this]

/-- Parsing back a four-digit year field stops at the following non-digit
and recovers the value. -/
theorem readNat_format4 {n : Nat} (hn : n ≤ 9999) {c : Char} (hc : c.isDigit = false)
    (cs : List Char) : readNat (format4 n ++ c :: cs) = some (n, c :: cs) := by
  have h1 : n / 1000 ≤ 9 := by omega
  have h2 : n / 100 % 10 ≤ 9 := by omega
  have h3 : n / 10 % 10 ≤ 9 := by omega
  have h4 : n % 10 ≤ 9 := by omega
  simp only [format4, List.cons_append, List.nil_append, readNat,
    digitChar_isDigit h1, if_true, readDigits_digit h1, readDigits_digit h2,
    readDigits_digit h3, readDigits_digit h4, readDigits_stop hc]
  have : (((0 * 10 + n / 1000) * 10 + n / 100 % 10) * 10 + n / 10 % 10) * 10 + n % 10 = n := by
    omega
  rw [this]

theorem expectChar_hit (c : Char) (cs : List Char) : expectChar c (c :: cs) = some cs := by
  simp [expectChar]

theorem daysInMonth_le_31 (y m : Nat) : daysInMonth y m ≤ 31 := by
  unfold daysInMonth
  split
  · split <;> omega
  · split <;> omega

theorem toList_mk (l : List Char) : (String.mk l).toList = l := rfl

/-- C10: bookmark serialization round-trips at second precision: writing any
valid datetime `v` with `update_bookmark` and reading it back with the base
`get_bookmark` yields the naive datetime with `v`'s year, month, day, hour,
minute and second, the microseconds and timezone information having been
discarded by the fixed `'%Y-%m-%dT%H:%M:%SZ'` format. -/
theorem C10_bookmark_roundtrip (state : Option String) (configStartDate : String)
    (v : PyDateTime) (h : pythonValidDateTime v) :
    Stream.get_bookmark (Stream.update_bookmark state v) configStartDate =
      some { year := v.year, month := v.month, day := v.day, hour := v.hour,
             minute := v.minute, second := v.second } := by
  obtain ⟨hy1, hy2, hm1, hm2, hd1, hd2, hh, hmi, hs, hms⟩ := h
  have hd99 : v.day ≤ 99 := le_trans hd2 (le_trans (daysInMonth_le_31 v.year v.month) (by omega))
  unfold Stream.get_bookmark Stream.update_bookmark get_bookmark_raw
  simp only [Option.getD_some]
  unfold strptimeBookmark strftimeBookmark
  have hdash : ('-').isDigit = false := by decide
  have hT : ('T').isDigit = false := by decide
  have hcolon : (':').isDigit = false := by decide
  have hZ : ('Z').isDigit = false := by decide
  rw [toList_mk]
  rw [readNat_format4 hy2 hdash]
  simp only [Option.bind_eq_bind, Option.some_bind, expectChar_hit]
  rw [readNat_format2 (by omega) hdash]
  simp only [Option.bind_eq_bind, Option.some_bind, expectChar_hit]
  rw [readNat_format2 hd99 hT]
  simp only [Option.bind_eq_bind, Option.some_bind, expectChar_hit]
  rw [readNat_format2 (by omega) hcolon]
  simp only [Option.bind_eq_bind, Option.some_bind, expectChar_hit]
  rw [readNat_format2 (by omega) hcolon]
  simp only [Option.bind_eq_bind, Option.some_bind, expectChar_hit]
  rw [show format2 v.second ++ ['Z'] = format2 v.second ++ 'Z' :: [] from rfl,
    readNat_format2 (by omega) hZ]
  simp only [Option.bind_eq_bind, Option.some_bind, expectChar_hit]
  rw [if_pos (⟨trivial, hy1, hy2, hm1, hm2, hd1, hd2, hh, hmi, hs⟩ : _)]

/-- Witness for `C10_bookmark_roundtrip`: a datetime carrying microseconds
and an offset round-trips to its second-precision naive value. -/
theorem C10_bookmark_roundtrip_witness :
    pythonValidDateTime
      { year := 2023, month := 5, day := 15, hour := 10, minute := 20, second := 30,
        microsecond := 123456, tzOffsetMinutes := some 120 } ∧
    Stream.get_bookmark
        (Stream.update_bookmark (some "1999-01-01T00:00:00Z")
          { year := 2023, month := 5, day := 15, hour := 10, minute := 20, second := 30,
            microsecond := 123456, tzOffsetMinutes := some 120 })
        "1970-01-01T00:00:00Z" =
      some { year := 2023, month := 5, day := 15, hour := 10, minute := 20, second := 30 } :=
  ⟨by decide,
   C10_bookmark_roundtrip (some "1999-01-01T00:00:00Z") "1970-01-01T00:00:00Z"
     { year := 2023, month := 5, day := 15, hour := 10, minute := 20, second := 30,
       microsecond := 123456, tzOffsetMinutes := some 120 } (by decide)⟩

/-! ## Claim theorems: checkpoint monotonicity -/

theorem cmpNat_self (a : Nat) : cmpNat a a = Ordering.eq := by
  simp [cmpNat]

theorem cmpNat_lt_of_lt {a b : Nat} (h : a < b) : cmpNat a b = Ordering.lt := by
  simp [cmpNat, h]

/-- Adding one granularity delta strictly increases a datetime (for a month
step the month or year field grows, which dominates the clamped day). -/
theorem lt_addDelta (delta : Delta) (d : PyDateTime) : d.lt (addDelta delta d) = true := by
  cases delta with
  | days1 =>
    simp only [addDelta]
    split_ifs with h1 h2
    · simp [PyDateTime.lt, PyDateTime.cmp, ordThen, cmpNat_self,
        cmpNat_lt_of_lt (Nat.lt_succ_self d.day)]
    · simp [PyDateTime.lt, PyDateTime.cmp, ordThen, cmpNat_self,
        cmpNat_lt_of_lt (Nat.lt_succ_self d.month)]
    · simp [PyDateTime.lt, PyDateTime.cmp, ordThen, cmpNat_self,
        cmpNat_lt_of_lt (Nat.lt_succ_self d.year)]
  | months1 =>
    simp only [addDelta]
    split_ifs with h1
    · simp [PyDateTime.lt, PyDateTime.cmp, ordThen, cmpNat_self,
        cmpNat_lt_of_lt (Nat.lt_succ_self d.month)]
    · simp [PyDateTime.lt, PyDateTime.cmp, ordThen, cmpNat_self,
        cmpNat_lt_of_lt (Nat.lt_succ_self d.year)]

@[simp] theorem bookmarkValues_nil : bookmarkValues [] = [] := rfl

@[simp] theorem bookmarkValues_cons_bw (v : PyDateTime) (l : List Event) :
    bookmarkValues (Event.bookmarkWrite v :: l) = v :: bookmarkValues l := by
  simp [bookmarkValues]

@[simp] theorem bookmarkValues_cons_flush (l : List Event) :
    bookmarkValues (Event.stateFlush :: l) = bookmarkValues l := by
  simp [bookmarkValues]

@[simp] theorem bookmarkValues_cons_fetch (d : PyDateTime) (l : List Event) :
    bookmarkValues (Event.fetch d :: l) = bookmarkValues l := by
  simp [bookmarkValues]

@[simp] theorem bookmarkValues_cons_record (r : List (String × Val)) (l : List Event) :
    bookmarkValues (Event.record r :: l) = bookmarkValues l := by
  simp [bookmarkValues]

@[simp] theorem bookmarkValues_append (xs ys : List Event) :
    bookmarkValues (xs ++ ys) = bookmarkValues xs ++ bookmarkValues ys := by
  simp [bookmarkValues]

theorem emitRecords_isRecord (delta : Delta) (vendor : String)
    (extractionTime iterator : PyDateTime) (rows : List (List (String × String))) :
    ∀ e ∈ emitRecords delta vendor extractionTime iterator rows, Event.isRecord e = true := by
  intro e he
  simp only [emitRecords, List.mem_map] at he
  obtain ⟨ir, _, rfl⟩ := he
  rfl

theorem bookmarkValues_of_records (l : List Event)
    (h : ∀ e ∈ l, Event.isRecord e = true) : bookmarkValues l = [] := by
  induction l with
  | nil => rfl
  | cons e es ih =>
    cases e with
    | record data =>
      rw [bookmarkValues_cons_record]
      exact ih fun x hx => h x (List.mem_cons_of_mem _ hx)
    | bookmarkWrite v => exact absurd (h _ (List.mem_cons_self _ _)) (by simp [Event.isRecord])
    | stateFlush => exact absurd (h _ (List.mem_cons_self _ _)) (by simp [Event.isRecord])
    | fetch d => exact absurd (h _ (List.mem_cons_self _ _)) (by simp [Event.isRecord])

@[simp] theorem bookmarkValues_emitRecords (delta : Delta) (vendor : String)
    (extractionTime iterator : PyDateTime) (rows : List (List (String × String))) :
    bookmarkValues (emitRecords delta vendor extractionTime iterator rows) = [] :=
  bookmarkValues_of_records _ (emitRecords_isRecord delta vendor extractionTime iterator rows)

/-- Along the window loop, the checkpoint values written (prefixed with the
iterator they start from) form a chain in which each value is its
predecessor plus one delta, strictly increasing. -/
theorem query_report_loop_chain
    (gr : PyDateTime → Except StreamExc (Option (List (List (String × String)))))
    (delta : Delta) (vendor : String) (extractionTime : PyDateTime) :
    ∀ (fuel : Nat) (it : PyDateTime),
      List.Chain' (fun a b => b = addDelta delta a ∧ a.lt b = true)
        (it :: bookmarkValues (query_report_loop gr delta vendor extractionTime fuel it).1) := by
  intro fuel
  induction fuel with
  | zero =>
    intro it
    unfold query_report_loop
    split <;> simp
  | succ k ih =>
    intro it
    unfold query_report_loop
    split
    · cases hgr : gr it with
      | error e => simp
      | ok o =>
        cases o with
        | none => simp
        | some rows =>
          simp only [bookmarkValues_cons_fetch, bookmarkValues_append,
            bookmarkValues_emitRecords, bookmarkValues_cons_bw, bookmarkValues_cons_flush,
            List.nil_append]
          exact List.chain'_cons.mpr ⟨⟨rfl, lt_addDelta delta it⟩, ih (addDelta delta it)⟩
    · simp

/-- C4: over any run, the sequence of checkpoint values written to the state
is strictly increasing, each written value being exactly the previous one
plus one granularity delta. -/
theorem C4_checkpoint_strictly_increasing
    (gr : PyDateTime → Except StreamExc (Option (List (List (String × String)))))
    (delta : Delta) (vendor : String) (bookmark extractionTime : PyDateTime) (fuel : Nat) :
    List.Chain' (fun a b => b = addDelta delta a ∧ a.lt b = true)
      (bookmarkValues (query_report gr delta vendor bookmark extractionTime fuel).1) := by
  simp only [query_report]
  split
  · simpa using query_report_loop_chain gr delta vendor extractionTime fuel bookmark
  · simpa using query_report_loop_chain gr delta vendor extractionTime fuel bookmark

/-! ## Claim theorems: checkpoint/window temporal invariant -/

theorem query_report_loop_not_eligible
    (gr : PyDateTime → Except StreamExc (Option (List (List (String × String)))))
    (delta : Delta) (vendor : String) (extractionTime : PyDateTime) (fuel : Nat)
    (it : PyDateTime) (h : (addDelta delta it).le extractionTime = false) :
    query_report_loop gr delta vendor extractionTime fuel it = ([], none, true) := by
  cases fuel <;> simp [query_report_loop, h]

theorem query_report_loop_zero_eligible
    (gr : PyDateTime → Except StreamExc (Option (List (List (String × String)))))
    (delta : Delta) (vendor : String) (extractionTime : PyDateTime)
    (it : PyDateTime) (h : (addDelta delta it).le extractionTime = true) :
    query_report_loop gr delta vendor extractionTime 0 it = ([], none, false) := by
  simp [query_report_loop, h]

theorem query_report_loop_succ_error
    (gr : PyDateTime → Except StreamExc (Option (List (List (String × String)))))
    (delta : Delta) (vendor : String) (extractionTime : PyDateTime) (k : Nat)
    (it : PyDateTime) (e : StreamExc)
    (hc : (addDelta delta it).le extractionTime = true) (hgr : gr it = .error e) :
    query_report_loop gr delta vendor extractionTime (k + 1) it =
      ([Event.fetch it], some e, false) := by
  simp [query_report_loop, hc, hgr]

theorem query_report_loop_succ_none
    (gr : PyDateTime → Except StreamExc (Option (List (List (String × String)))))
    (delta : Delta) (vendor : String) (extractionTime : PyDateTime) (k : Nat)
    (it : PyDateTime)
    (hc : (addDelta delta it).le extractionTime = true) (hgr : gr it = .ok none) :
    query_report_loop gr delta vendor extractionTime (k + 1) it =
      ([Event.fetch it], some StreamExc.noneIteration, false) := by
  simp [query_report_loop, hc, hgr]

theorem query_report_loop_succ_some
    (gr : PyDateTime → Except StreamExc (Option (List (List (String × String)))))
    (delta : Delta) (vendor : String) (extractionTime : PyDateTime) (k : Nat)
    (it : PyDateTime) (rows : List (List (String × String)))
    (hc : (addDelta delta it).le extractionTime = true) (hgr : gr it = .ok (some rows)) :
    query_report_loop gr delta vendor extractionTime (k + 1) it =
      (Event.fetch it ::
         (emitRecords delta vendor extractionTime it rows ++
           (Event.bookmarkWrite (addDelta delta it) :: Event.stateFlush ::
             (query_report_loop gr delta vendor extractionTime k (addDelta delta it)).1)),
       (query_report_loop gr delta vendor extractionTime k (addDelta delta it)).2.1,
       (query_report_loop gr delta vendor extractionTime k (addDelta delta it)).2.2) := by
  simp [query_report_loop, hc, hgr]

@[simp] theorem lastBookmarkD_nil (dflt : PyDateTime) : lastBookmarkD dflt [] = dflt := rfl

@[simp] theorem lastBookmarkD_cons_bw (dflt v : PyDateTime) (l : List Event) :
    lastBookmarkD dflt (Event.bookmarkWrite v :: l) = lastBookmarkD v l := rfl

@[simp] theorem lastBookmarkD_cons_flush (dflt : PyDateTime) (l : List Event) :
    lastBookmarkD dflt (Event.stateFlush :: l) = lastBookmarkD dflt l := rfl

@[simp] theorem lastBookmarkD_cons_fetch (dflt d : PyDateTime) (l : List Event) :
    lastBookmarkD dflt (Event.fetch d :: l) = lastBookmarkD dflt l := rfl

@[simp] theorem lastBookmarkD_cons_record (dflt : PyDateTime) (r : List (String × Val))
    (l : List Event) : lastBookmarkD dflt (Event.record r :: l) = lastBookmarkD dflt l := rfl

@[simp] theorem lastBookmarkD_append (dflt : PyDateTime) (xs ys : List Event) :
    lastBookmarkD dflt (xs ++ ys) = lastBookmarkD (lastBookmarkD dflt xs) ys := by
  induction xs generalizing dflt with
  | nil => rfl
  | cons e es ih => cases e <;> simp [ih]

theorem isBookmarkWrite_false_of_isRecord {e : Event} (h : Event.isRecord e = true) :
    e.isBookmarkWrite = false := by
  cases e <;> simp_all [Event.isRecord, Event.isBookmarkWrite]

theorem lastBookmarkD_no_writes (dflt : PyDateTime) (l : List Event)
    (h : ∀ e ∈ l, Event.isBookmarkWrite e = false) : lastBookmarkD dflt l = dflt := by
  induction l with
  | nil => rfl
  | cons e es ih =>
    cases e with
    | bookmarkWrite v => exact absurd (h _ (List.mem_cons_self _ _)) (by simp [Event.isBookmarkWrite])
    | stateFlush => simpa using ih fun x hx => h x (List.mem_cons_of_mem _ hx)
    | fetch d => simpa using ih fun x hx => h x (List.mem_cons_of_mem _ hx)
    | record r => simpa using ih fun x hx => h x (List.mem_cons_of_mem _ hx)

theorem lastBookmarkD_emitRecords (dflt : PyDateTime) (delta : Delta) (vendor : String)
    (extractionTime iterator : PyDateTime) (rows : List (List (String × String))) :
    lastBookmarkD dflt (emitRecords delta vendor extractionTime iterator rows) = dflt :=
  lastBookmarkD_no_writes dflt _ fun e he =>
    isBookmarkWrite_false_of_isRecord (emitRecords_isRecord delta vendor extractionTime iterator rows e he)

theorem lastBookmark_cons_bw (v : PyDateTime) (l : List Event) :
    lastBookmark (Event.bookmarkWrite v :: l) = some (lastBookmarkD v l) := rfl

theorem lastBookmark_append_no_writes (xs l : List Event)
    (h : ∀ e ∈ l, Event.isBookmarkWrite e = false) :
    lastBookmark (xs ++ l) = lastBookmark xs := by
  induction xs with
  | nil =>
    simp only [List.nil_append]
    induction l with
    | nil => rfl
    | cons e es ih =>
      cases e with
      | bookmarkWrite v =>
        exact absurd (h _ (List.mem_cons_self _ _)) (by simp [Event.isBookmarkWrite])
      | stateFlush => exact ih fun x hx => h x (List.mem_cons_of_mem _ hx)
      | fetch d => exact ih fun x hx => h x (List.mem_cons_of_mem _ hx)
      | record r => exact ih fun x hx => h x (List.mem_cons_of_mem _ hx)
  | cons e es ih =>
    cases e with
    | bookmarkWrite v =>
      simp only [List.cons_append, lastBookmark_cons_bw, lastBookmarkD_append]
      rw [lastBookmarkD_no_writes _ l h]
    | stateFlush => simpa [lastBookmark] using ih
    | fetch d => simpa [lastBookmark] using ih
    | record r => simpa [lastBookmark] using ih

/-- Splitting an append whose left part consists of record events at a
non-record event: the split point lies in the right part. -/
theorem split_through_records {rs rest l₁ l₂ : List Event} {x : Event}
    (hrs : ∀ e ∈ rs, Event.isRecord e = true) (hx : Event.isRecord x = false)
    (h : rs ++ rest = l₁ ++ x :: l₂) :
    ∃ l', l₁ = rs ++ l' ∧ rest = l' ++ x :: l₂ := by
  induction rs generalizing l₁ with
  | nil => exact ⟨l₁, rfl, h⟩
  | cons r rs ih =>
    cases l₁ with
    | nil =>
      simp only [List.nil_append, List.cons_append, List.cons.injEq] at h
      have hr := hrs r (List.mem_cons_self _ _)
      rw [h.1, hx] at hr
      cases hr
    | cons a l₁ =>
      simp only [List.cons_append, List.cons.injEq] at h
      obtain ⟨rfl, h2⟩ := h
      obtain ⟨l', rfl, hrest⟩ := ih (fun e he => hrs e (List.mem_cons_of_mem _ he)) h2
      exact ⟨l', by simp, hrest⟩

/-- Splitting a list with a known final element at an event different from
it: the split point lies strictly before the end. -/
theorem split_before_last {y x : Event} (hxy : x ≠ y) :
    ∀ {xs l₁ l₂ : List Event}, xs ++ [y] = l₁ ++ x :: l₂ →
      ∃ l₂', l₂ = l₂' ++ [y] ∧ xs = l₁ ++ x :: l₂' := by
  intro xs
  induction xs with
  | nil =>
    intro l₁ l₂ h
    cases l₁ with
    | nil =>
      simp only [List.nil_append, List.cons.injEq] at h
      exact absurd h.1.symm hxy
    | cons a l₁ =>
      simp only [List.nil_append, List.cons_append, List.cons.injEq] at h
      exact absurd h.2 (by simp)
  | cons a xs ih =>
    intro l₁ l₂ h
    cases l₁ with
    | nil =>
      simp only [List.nil_append, List.cons_append, List.cons.injEq] at h
      obtain ⟨rfl, rfl⟩ := h
      exact ⟨xs, rfl, rfl⟩
    | cons b l₁ =>
      simp only [List.cons_append, List.cons.injEq] at h
      obtain ⟨rfl, h2⟩ := h
      obtain ⟨l₂', rfl, hxs⟩ := ih h2
      exact ⟨l₂', rfl, by simp [hxs]⟩

/-- Inside the window loop started at `it`, the checkpoint stored when a
fetch for window `d` happens (with `it` stored on entry) is exactly `d`. -/
theorem query_report_loop_fetch_lastBookmark
    (gr : PyDateTime → Except StreamExc (Option (List (List (String × String)))))
    (delta : Delta) (vendor : String) (extractionTime : PyDateTime) :
    ∀ (fuel : Nat) (it : PyDateTime) (l₁ : List Event) (d : PyDateTime) (l₂ : List Event),
      (query_report_loop gr delta vendor extractionTime fuel it).1 =
        l₁ ++ Event.fetch d :: l₂ →
      lastBookmarkD it l₁ = d := by
  intro fuel
  induction fuel with
  | zero =>
    intro it l₁ d l₂ h
    by_cases hc : (addDelta delta it).le extractionTime = true
    · rw [query_report_loop_zero_eligible gr delta vendor extractionTime it hc] at h
      exact absurd h (by simp)
    · rw [query_report_loop_not_eligible gr delta vendor extractionTime 0 it
        (by simpa using hc)] at h
      exact absurd h (by simp)
  | succ k ih =>
    intro it l₁ d l₂ h
    by_cases hc : (addDelta delta it).le extractionTime = true
    · cases hgr : gr it with
      | error e =>
        rw [query_report_loop_succ_error gr delta vendor extractionTime k it e hc hgr] at h
        cases l₁ with
        | nil =>
          simp only [List.nil_append, List.cons.injEq, Event.fetch.injEq] at h
          simpa using h.1
        | cons a l₁ =>
          simp only [List.cons_append, List.cons.injEq] at h
          exact absurd h.2 (by simp)
      | ok o =>
        cases o with
        | none =>
          rw [query_report_loop_succ_none gr delta vendor extractionTime k it hc hgr] at h
          cases l₁ with
          | nil =>
            simp only [List.nil_append, List.cons.injEq, Event.fetch.injEq] at h
            simpa using h.1
          | cons a l₁ =>
            simp only [List.cons_append, List.cons.injEq] at h
            exact absurd h.2 (by simp)
        | some rows =>
          rw [query_report_loop_succ_some gr delta vendor extractionTime k it rows hc hgr] at h
          cases l₁ with
          | nil =>
            simp only [List.nil_append, List.cons.injEq, Event.fetch.injEq] at h
            simpa using h.1
          | cons a l₁ =>
            simp only [List.cons_append, List.cons.injEq] at h
            obtain ⟨rfl, h2⟩ := h
            obtain ⟨l', rfl, hrest⟩ :=
              split_through_records
                (emitRecords_isRecord delta vendor extractionTime it rows)
                (by simp [Event.isRecord]) h2
            cases l' with
            | nil => simp at hrest
            | cons b l' =>
              simp only [List.cons_append, List.cons.injEq] at hrest
              obtain ⟨rfl, hrest2⟩ := hrest
              cases l' with
              | nil => simp at hrest2
              | cons c l' =>
                simp only [List.cons_append, List.cons.injEq] at hrest2
                obtain ⟨rfl, hrest3⟩ := hrest2
                have hd := ih (addDelta delta it) l' d l₂ hrest3
                simp [lastBookmarkD_emitRecords, hd]
    · rw [query_report_loop_not_eligible gr delta vendor extractionTime (k + 1) it
        (by simpa using hc)] at h
      exact absurd h (by simp)

/-- Inside the window loop, every checkpoint write closes the window whose
fetch immediately precedes it, with only that window's record emissions in
between, and writes exactly that window's end boundary. -/
theorem query_report_loop_bw_closes_window
    (gr : PyDateTime → Except StreamExc (Option (List (List (String × String)))))
    (delta : Delta) (vendor : String) (extractionTime : PyDateTime) :
    ∀ (fuel : Nat) (it : PyDateTime) (l₁ : List Event) (v : PyDateTime) (l₂ : List Event),
      (query_report_loop gr delta vendor extractionTime fuel it).1 =
        l₁ ++ Event.bookmarkWrite v :: l₂ →
      ∃ l₀ d rs, l₁ = l₀ ++ Event.fetch d :: rs ∧
        (∀ e ∈ rs, Event.isRecord e = true) ∧ v = addDelta delta d := by
  intro fuel
  induction fuel with
  | zero =>
    intro it l₁ v l₂ h
    by_cases hc : (addDelta delta it).le extractionTime = true
    · rw [query_report_loop_zero_eligible gr delta vendor extractionTime it hc] at h
      exact absurd h (by simp)
    · rw [query_report_loop_not_eligible gr delta vendor extractionTime 0 it
        (by simpa using hc)] at h
      exact absurd h (by simp)
  | succ k ih =>
    intro it l₁ v l₂ h
    by_cases hc : (addDelta delta it).le extractionTime = true
    · cases hgr : gr it with
      | error e =>
        rw [query_report_loop_succ_error gr delta vendor extractionTime k it e hc hgr] at h
        cases l₁ with
        | nil => simp at h
        | cons a l₁ =>
          simp only [List.cons_append, List.cons.injEq] at h
          exact absurd h.2 (by simp)
      | ok o =>
        cases o with
        | none =>
          rw [query_report_loop_succ_none gr delta vendor extractionTime k it hc hgr] at h
          cases l₁ with
          | nil => simp at h
          | cons a l₁ =>
            simp only [List.cons_append, List.cons.injEq] at h
            exact absurd h.2 (by simp)
        | some rows =>
          rw [query_report_loop_succ_some gr delta vendor extractionTime k it rows hc hgr] at h
          cases l₁ with
          | nil => simp at h
          | cons a l₁ =>
            simp only [List.cons_append, List.cons.injEq] at h
            obtain ⟨rfl, h2⟩ := h
            obtain ⟨l', rfl, hrest⟩ :=
              split_through_records
                (emitRecords_isRecord delta vendor extractionTime it rows)
                (by simp [Event.isRecord]) h2
            cases l' with
            | nil =>
              simp only [List.nil_append, List.cons.injEq, Event.bookmarkWrite.injEq] at hrest
              exact ⟨[], it, emitRecords delta vendor extractionTime it rows,
                by simp, emitRecords_isRecord delta vendor extractionTime it rows,
                hrest.1.symm⟩
            | cons b l' =>
              simp only [List.cons_append, List.cons.injEq] at hrest
              obtain ⟨rfl, hrest2⟩ := hrest
              cases l' with
              | nil => simp at hrest2
              | cons c l' =>
                simp only [List.cons_append, List.cons.injEq] at hrest2
                obtain ⟨rfl, hrest3⟩ := hrest2
                obtain ⟨l₀, d, rs, hsplit, hrs, hv⟩ :=
                  ih (addDelta delta it) l' v l₂ hrest3
                refine ⟨Event.fetch it ::
                  (emitRecords delta vendor extractionTime it rows ++
                    (Event.bookmarkWrite (addDelta delta it) :: Event.stateFlush :: l₀)),
                  d, rs, ?_, hrs, hv⟩
                simp [hsplit]
    · rw [query_report_loop_not_eligible gr delta vendor extractionTime (k + 1) it
        (by simpa using hc)] at h
      exact absurd h (by simp)

/-- C3: in every run's event trace, (1) at each vendor fetch the stored
checkpoint equals that window's start (it was written before the fetch),
(2) at every point between a window's fetch and the completion of its
emission (only record events since the fetch) the stored checkpoint still
equals that window's start, and (3) every checkpoint write other than the
initial one writes the end boundary of the window whose fetch immediately
precedes it, with only that window's record emissions in between — i.e. the
checkpoint is rewritten to the next boundary only after the window's records
have all been emitted. -/
theorem C3_checkpoint_window_invariant
    (gr : PyDateTime → Except StreamExc (Option (List (List (String × String)))))
    (delta : Delta) (vendor : String) (bookmark extractionTime : PyDateTime) (fuel : Nat)
    (evs : List Event)
    (hevs : evs = (query_report gr delta vendor bookmark extractionTime fuel).1) :
    (∀ l₁ d l₂, evs = l₁ ++ Event.fetch d :: l₂ → lastBookmark l₁ = some d) ∧
    (∀ l₁ d rs l₂, evs = l₁ ++ Event.fetch d :: (rs ++ l₂) →
        (∀ e ∈ rs, Event.isRecord e = true) →
        lastBookmark (l₁ ++ Event.fetch d :: rs) = some d) ∧
    (∀ l₁ v l₂, evs = l₁ ++ Event.bookmarkWrite v :: l₂ →
        (l₁ = [] ∧ v = bookmark) ∨
        ∃ l₀ d rs, l₁ = l₀ ++ Event.fetch d :: rs ∧
          (∀ e ∈ rs, Event.isRecord e = true) ∧ v = addDelta delta d) := by
  have hshape :
      evs = Event.bookmarkWrite bookmark ::
          ((query_report_loop gr delta vendor extractionTime fuel bookmark).1 ++
            [Event.stateFlush]) ∨
      evs = Event.bookmarkWrite bookmark ::
          (query_report_loop gr delta vendor extractionTime fuel bookmark).1 := by
    rw [hevs]
    simp only [query_report]
    split
    · exact Or.inl rfl
    · exact Or.inr rfl
  have hfetch : ∀ l₁ d l₂, evs = l₁ ++ Event.fetch d :: l₂ → lastBookmark l₁ = some d := by
    intro l₁ d l₂ h
    rcases hshape with hsh | hsh <;> rw [hsh] at h
    · cases l₁ with
      | nil => simp at h
      | cons a l₁ =>
        simp only [List.cons_append, List.cons.injEq] at h
        obtain ⟨rfl, h2⟩ := h
        obtain ⟨l₂', rfl, hloop⟩ := split_before_last (by simp) h2
        have hd := query_report_loop_fetch_lastBookmark gr delta vendor extractionTime
          fuel bookmark l₁ d l₂' hloop
        rw [lastBookmark_cons_bw]
        exact congrArg some hd
    · cases l₁ with
      | nil => simp at h
      | cons a l₁ =>
        simp only [List.cons_append, List.cons.injEq] at h
        obtain ⟨rfl, h2⟩ := h
        have hd := query_report_loop_fetch_lastBookmark gr delta vendor extractionTime
          fuel bookmark l₁ d l₂ h2
        rw [lastBookmark_cons_bw]
        exact congrArg some hd
  have hbw : ∀ l₁ v l₂, evs = l₁ ++ Event.bookmarkWrite v :: l₂ →
      (l₁ = [] ∧ v = bookmark) ∨
      ∃ l₀ d rs, l₁ = l₀ ++ Event.fetch d :: rs ∧
        (∀ e ∈ rs, Event.isRecord e = true) ∧ v = addDelta delta d := by
    intro l₁ v l₂ h
    rcases hshape with hsh | hsh <;> rw [hsh] at h
    · cases l₁ with
      | nil =>
        simp only [List.nil_append, List.cons.injEq, Event.bookmarkWrite.injEq] at h
        exact Or.inl ⟨rfl, h.1.symm⟩
      | cons a l₁ =>
        simp only [List.cons_append, List.cons.injEq] at h
        obtain ⟨rfl, h2⟩ := h
        obtain ⟨l₂', rfl, hloop⟩ := split_before_last (by simp) h2
        obtain ⟨l₀, d, rs, hsplit, hrs, hv⟩ :=
          query_report_loop_bw_closes_window gr delta vendor extractionTime
            fuel bookmark l₁ v l₂' hloop
        exact Or.inr ⟨Event.bookmarkWrite bookmark :: l₀, d, rs, by simp [hsplit], hrs, hv⟩
    · cases l₁ with
      | nil =>
        simp only [List.nil_append, List.cons.injEq, Event.bookmarkWrite.injEq] at h
        exact Or.inl ⟨rfl, h.1.symm⟩
      | cons a l₁ =>
        simp only [List.cons_append, List.cons.injEq] at h
        obtain ⟨rfl, h2⟩ := h
        obtain ⟨l₀, d, rs, hsplit, hrs, hv⟩ :=
          query_report_loop_bw_closes_window gr delta vendor extractionTime
            fuel bookmark l₁ v l₂ h2
        exact Or.inr ⟨Event.bookmarkWrite bookmark :: l₀, d, rs, by simp [hsplit], hrs, hv⟩
  refine ⟨hfetch, ?_, hbw⟩
  intro l₁ d rs l₂ h hrs
  have h1 := hfetch l₁ d (rs ++ l₂) h
  have hnw : ∀ e ∈ Event.fetch d :: rs, Event.isBookmarkWrite e = false := by
    intro e he
    rcases List.mem_cons.mp he with rfl | hm
    · rfl
    · exact isBookmarkWrite_false_of_isRecord (hrs e hm)
  rw [lastBookmark_append_no_writes l₁ (Event.fetch d :: rs) hnw]
  exact h1

/-- Witness for `C3_checkpoint_window_invariant`: in the single-window
empty-report run, the checkpoint stored at the fetch of `2023-07-01` is
`2023-07-01` itself. -/
theorem C3_checkpoint_window_invariant_witness :
    lastBookmark [Event.bookmarkWrite { year := 2023, month := 7, day := 1 }] =
      some { year := 2023, month := 7, day := 1 } :=
  (C3_checkpoint_window_invariant (fun _ => Except.ok (some [])) Delta.days1 "123"
      { year := 2023, month := 7, day := 1 } { year := 2023, month := 7, day := 2 } 1
      _ rfl).1
    [Event.bookmarkWrite { year := 2023, month := 7, day := 1 }]
    { year := 2023, month := 7, day := 1 }
    [Event.bookmarkWrite { year := 2023, month := 7, day := 2 },
     Event.stateFlush, Event.stateFlush]
    (by rfl)
